import Mathlib

/-!
# Shallow embedding of `AuthenticationService` (src/api/src/services/authentication.ts)

This file models the `login`, `refresh` and `logout` methods of the
`AuthenticationService` class over an explicit database state (users, roles,
sessions, shares, the singleton settings row) and an explicit rate-limiter
state.  Collaborators whose implementations are not part of the repository
(auth providers resolved by `getAuthProvider`, the `emitFilter` hooks, the
TFA verifier, the `nanoid` token generator, `env`, the wall clock) are
modelled from the spec as parameters bundled in an `Env` record.

Machine effects that the claims talk about — the `auth.login` fail/success
action emissions, calls to the provider's credential check, and calls to the
timing normalizer `stall` — are recorded in an event trace, in program order.
-/

namespace Directus

/-- Errors thrown by the service and its collaborators.
`invalidCredentials`, `userSuspended` and `invalidOTP` mirror the exception
classes imported in the source; `unknownProvider` models the error thrown by
`getAuthProvider` for an unregistered provider name; `hookError` stands for
any other error a hook or provider may throw (errors are re-raised verbatim,
so their identity is preserved by the constructors). -/
inductive AuthError where
  | invalidCredentials
  | userSuspended
  | invalidOTP (reason : String)
  | unknownProvider
  | hookError (n : Nat)
  deriving DecidableEq, Repr

/-- A row of `directus_roles` (the columns the service reads). -/
structure Role where
  id : Nat
  admin_access : Bool
  app_access : Bool
  deriving DecidableEq, Repr

/-- A row of `directus_users` (the columns the service reads or writes).
Ids are modelled as `Nat`; in the source they are non-empty uuid strings,
so presence/absence (JS truthiness of an id) is modelled by `Option`. -/
structure User where
  id : Nat
  first_name : Option String
  last_name : Option String
  email : Option String
  password : Option String
  status : String
  role : Nat
  provider : String
  external_identifier : Option String
  auth_data : Option String
  tfa_secret : Option String
  last_access : Option Nat
  deriving DecidableEq, Repr

/-- A row of `directus_sessions`.  Timestamps are `Nat` milliseconds. -/
structure Session where
  token : String
  user : Option Nat
  share : Option Nat
  expires : Nat
  ip : Option String
  user_agent : Option String
  deriving DecidableEq, Repr

/-- A row of `directus_shares` (the columns selected by `refresh`). -/
structure Share where
  id : Nat
  collection : String
  item : String
  role : Nat
  date_expired : Option Nat
  times_used : Nat
  max_uses : Option Nat
  deriving DecidableEq, Repr

/-- The persistent store: the four tables plus the one settings value the
service reads (`auth_login_attempts`) and the activity log appended to by
`activityService.createOne` (we record only the user id of each entry). -/
structure DB where
  users : List User
  roles : List Role
  sessions : List Session
  shares : List Share
  auth_login_attempts : Option Nat
  activity : List Nat
  deriving DecidableEq, Repr

/-- Rate limiter state: per-user-id consumed points
(`loginAttemptsLimiter` is keyed by `user.id`; duration 0 = never expires). -/
def Limiter : Type := List (Nat × Nat)

/-- Consumed points for a key (0 when the key has never been consumed). -/
def limGet (lim : Limiter) (key : Nat) : Nat :=
  match lim.find? (fun kv => kv.1 == key) with
  | some kv => kv.2
  | none => 0

/-- `loginAttemptsLimiter.set(key, v, 0)` / the write part of `consume`. -/
def limSet (lim : Limiter) (key : Nat) (v : Nat) : Limiter :=
  (key, v) :: lim.filter (fun kv => !(kv.1 == key))

/-- JWT payload built by `login`/`refresh` and passed to the `auth.jwt`
filter hook.  All fields are optional: in `refresh` they come from a
LEFT-JOINed row and may be null/undefined. -/
structure ShareScope where
  collection : Option String
  item : Option String
  deriving DecidableEq, Repr

structure TokenPayload where
  id : Option Nat
  role : Option Nat
  app_access : Option Bool
  admin_access : Option Bool
  share_scope : Option ShareScope
  deriving DecidableEq, Repr

/-- `jwt.sign(customClaims, env.SECRET, { expiresIn, issuer: 'directus' })`,
modelled as a transparent envelope around the signed claims. -/
structure SignedToken where
  claims : TokenPayload
  expiresIn : Nat
  issuer : String
  deriving DecidableEq, Repr

/-- The object `login` resolves with. -/
structure LoginResult where
  accessToken : SignedToken
  refreshToken : String
  expires : Nat
  id : Nat
  deriving DecidableEq, Repr

/-- The object `refresh` resolves with (`id` is `record.user_id`, null for
pure share sessions). -/
structure RefreshResult where
  accessToken : SignedToken
  refreshToken : String
  expires : Nat
  id : Option Nat
  deriving DecidableEq, Repr

/-- The user object `refresh` passes to the provider's `refresh` hook
(source lines 290–303). -/
structure ProviderUser where
  id : Option Nat
  first_name : Option String
  last_name : Option String
  email : Option String
  password : Option String
  status : Option String
  provider : Option String
  external_identifier : Option String
  auth_data : Option String
  role : Option Nat
  app_access : Option Bool
  admin_access : Option Bool
  deriving DecidableEq, Repr

/-- Observable events of one `login` call, in program order:
the `auth.login` filter hook, the `auth.login` action emission with status
fail/success, the call to the provider's `login` (the credential check),
the `auth.jwt` filter hook, and the call to `stall` (timing normalizer). -/
inductive Ev where
  | filterLogin
  | emitFail
  | emitSuccess
  | providerLoginCall
  | filterJwt
  | stallCall
  deriving DecidableEq, Repr

/-- Collaborators outside this file's source, modelled from the spec:

* `knownProviders` — the provider registry; `getAuthProvider` throws for a
  name not in it (spec §4.1: resolve fails with ConfigurationError).
* `getUserID` — provider-specific identifier derivation (spec §4.1),
  `none` when the credentials match no identifier.
* `providerLogin` — the provider's credential check; throws
  `InvalidCredentials` on mismatch, the service re-raises whatever it throws.
* `providerRefresh` / `providerLogout` — provider-side revalidation /
  cleanup hooks (spec §4.1); their errors propagate.
* `loginFilter` / `jwtFilter` — the `auth.login` and `auth.jwt`
  `emitFilter` hooks; awaited, may transform the payload or throw.
* `verifyOTP` — `TFAService.verifyOTP` (spec §4.3: returns a Bool).
* `accessTTL` / `refreshTTL` — `ms(env.ACCESS_TOKEN_TTL)` /
  `ms(env.REFRESH_TOKEN_TTL)` in milliseconds.
* `now` — `Date.now()` for this call.
* `freshToken` — the `nanoid(64)` value generated during this call.
* `ip` / `userAgent` / `hasAccountability` — the accountability context. -/
structure Env where
  knownProviders : List String
  getUserID : String → Nat → Option Nat
  providerLogin : User → Nat → Except AuthError Unit
  providerRefresh : ProviderUser → Except AuthError Unit
  providerLogout : User → Except AuthError Unit
  loginFilter : Nat → Except AuthError Nat
  jwtFilter : TokenPayload → Except AuthError TokenPayload
  verifyOTP : Nat → String → Bool
  accessTTL : Nat
  refreshTTL : Nat
  now : Nat
  freshToken : String
  ip : Option String
  userAgent : Option String
  hasAccountability : Bool

/-- JS truthiness of a nullable string (`user.tfa_secret`, `otp`):
null/undefined and the empty string are falsy. -/
def truthy : Option String → Bool
  | none => false
  | some s => !(s == "")

/-- The user+role row loaded by `login`: `directus_users` INNER JOIN
`directus_roles` on `u.role = r.id`, WHERE `u.id` = the provider-derived id
AND `u.provider` = the request's provider name, `.first()`. -/
def findLoginUser (db : DB) (uid : Option Nat) (providerName : String) :
    Option (User × Role) :=
  match uid with
  | none => none
  | some i =>
    match db.users.find? (fun u => u.id == i && u.provider == providerName) with
    | none => none
    | some u =>
      match db.roles.find? (fun r => r.id == u.role) with
      | none => none
      | some r => some (u, r)

/-- `update directus_users set status = 'suspended' where id = uid`. -/
def suspendUser (db : DB) (uid : Nat) : DB :=
  let users := db.users.map (fun u => if u.id == uid then { u with status := "suspended" } else u)
  { db with users := users }

/-- `update directus_users set last_access = now where id = uid`. -/
def updateLastAccess (db : DB) (uid : Nat) (now : Nat) : DB :=
  let users := db.users.map (fun u => if u.id == uid then { u with last_access := some now } else u)
  { db with users := users }

/-- `AuthenticationService.login` (source lines 51–243).
Returns the result or thrown error, the final store, the final limiter
state, and the event trace. -/
def login (env : Env) (db : DB) (lim : Limiter) (providerName : String)
    (payload : Nat) (otp : Option String) :
    Except AuthError LoginResult × DB × Limiter × List Ev :=
  -- const provider = getAuthProvider(providerName); — throws before any stall
  if !(env.knownProviders.contains providerName) then
    (.error .unknownProvider, db, lim, [])
  else
    -- const user = await this.knex.select(...)...first();
    let user? := findLoginUser db (env.getUserID providerName payload) providerName
    -- const updatedPayload = await emitter.emitFilter('auth.login', ...);
    match env.loginFilter payload with
    | .error e => (.error e, db, lim, [.filterLogin])
    | .ok updatedPayload =>
      match user? with
      | none =>
        -- user?.status !== 'active', and not 'suspended' (user undefined)
        (.error .invalidCredentials, db, lim, [.filterLogin, .emitFail, .stallCall])
      | some (u, r) =>
        if u.status == "suspended" then
          (.error .userSuspended, db, lim, [.filterLogin, .emitFail, .stallCall])
        else if !(u.status == "active") then
          (.error .invalidCredentials, db, lim, [.filterLogin, .emitFail, .stallCall])
        else
          -- const { auth_login_attempts: allowedAttempts } = await settingsService.readSingleton(...)
          let allowed := db.auth_login_attempts
          let step :=
            match allowed with
            | none => (db, lim, u)
            | some points =>
              -- loginAttemptsLimiter.points = points; await consume(user.id)
              if limGet lim u.id + 1 > points then
                -- consume rejected: suspend the user, reset the counter
                (suspendUser db u.id, limSet lim u.id 0, { u with status := "suspended" })
              else
                (db, limSet lim u.id (limGet lim u.id + 1), u)
          let db1 := step.1
          let lim1 := step.2.1
          let u1 := step.2.2
          -- await provider.login(clone(user), cloneDeep(updatedPayload));
          match env.providerLogin u1 updatedPayload with
          | .error e =>
            (.error e, db1, lim1, [.filterLogin, .providerLoginCall, .emitFail, .stallCall])
          | .ok _ =>
            if truthy u1.tfa_secret && !(truthy otp) then
              (.error (.invalidOTP "required"), db1, lim1,
                [.filterLogin, .providerLoginCall, .emitFail, .stallCall])
            else if truthy u1.tfa_secret && truthy otp &&
                !(env.verifyOTP u1.id (otp.getD "")) then
              (.error (.invalidOTP "invalid"), db1, lim1,
                [.filterLogin, .providerLoginCall, .emitFail, .stallCall])
            else
              let tokenPayload : TokenPayload :=
                { id := some u1.id
                  role := some u1.role
                  app_access := some r.app_access
                  admin_access := some r.admin_access
                  share_scope := none }
              -- const customClaims = await emitter.emitFilter('auth.jwt', tokenPayload, ...)
              match env.jwtFilter tokenPayload with
              | .error e =>
                (.error e, db1, lim1, [.filterLogin, .providerLoginCall, .filterJwt])
              | .ok customClaims =>
                let accessToken : SignedToken :=
                  { claims := customClaims, expiresIn := env.accessTTL, issuer := "directus" }
                let refreshToken := env.freshToken
                let newSession : Session :=
                  { token := refreshToken
                    user := some u1.id
                    share := none
                    expires := env.now + env.refreshTTL
                    ip := env.ip
                    user_agent := env.userAgent }
                -- insert the session, then delete rows with expires < now
                let swept :=
                  (newSession :: db1.sessions).filter (fun s => decide (env.now ≤ s.expires))
                let db2 := { db1 with sessions := swept }
                let db3 :=
                  if env.hasAccountability then { db2 with activity := u1.id :: db2.activity }
                  else db2
                let db4 := updateLastAccess db3 u1.id env.now
                let lim2 :=
                  match allowed with
                  | none => lim1
                  | some _ => limSet lim1 u1.id 0
                (.ok { accessToken := accessToken
                       refreshToken := refreshToken
                       expires := env.accessTTL
                       id := u1.id },
                 db4, lim2,
                 [.filterLogin, .providerLoginCall, .filterJwt, .emitSuccess, .stallCall])

/-- The WHERE clause of the `refresh` lookup applied to one session row:
`s.token = tok AND s.expires >= now AND (d.date_expired IS NULL OR
d.date_expired >= now)` where `d` is the LEFT-JOINed share (absent share or
dangling share reference gives NULL `d.date_expired`, which passes). -/
def sessionRowMatches (db : DB) (now : Nat) (tok : String) (s : Session) : Bool :=
  s.token == tok && decide (now ≤ s.expires) &&
    (match s.share.bind (fun sid => db.shares.find? (fun d => d.id == sid)) with
     | none => true
     | some d =>
       match d.date_expired with
       | none => true
       | some e => decide (now ≤ e))

/-- The record `refresh` selects (source lines 250–281): every selected
alias, with NULL modelled as `none`.  The role row comes from
`LEFT JOIN directus_roles AS r ON r.id IN (u.role, d.role)`.
Note for later: `share_role` is NOT among the selected aliases. -/
structure RefreshRecord where
  session_expires : Nat
  user_id : Option Nat
  user_first_name : Option String
  user_last_name : Option String
  user_email : Option String
  user_password : Option String
  user_status : Option String
  user_provider : Option String
  user_external_identifier : Option String
  user_auth_data : Option String
  role_id : Option Nat
  role_admin_access : Option Bool
  role_app_access : Option Bool
  share_id : Option Nat
  share_item : Option String
  share_collection : Option String
  share_expires : Option Nat
  share_times_used : Option Nat
  share_max_uses : Option Nat
  deriving DecidableEq, Repr

/-- Build the selected record from a matching session row. -/
def buildRefreshRecord (db : DB) (s : Session) : RefreshRecord :=
  let u := s.user.bind (fun uid => db.users.find? (fun x => x.id == uid))
  let d := s.share.bind (fun sid => db.shares.find? (fun x => x.id == sid))
  let r := db.roles.find? (fun rr =>
    (match u with | some uu => uu.role == rr.id | none => false) ||
    (match d with | some dd => dd.role == rr.id | none => false))
  { session_expires := s.expires
    user_id := u.map (fun x => x.id)
    user_first_name := u.bind (fun x => x.first_name)
    user_last_name := u.bind (fun x => x.last_name)
    user_email := u.bind (fun x => x.email)
    user_password := u.bind (fun x => x.password)
    user_status := u.map (fun x => x.status)
    user_provider := u.map (fun x => x.provider)
    user_external_identifier := u.bind (fun x => x.external_identifier)
    user_auth_data := u.bind (fun x => x.auth_data)
    role_id := r.map (fun x => x.id)
    role_admin_access := r.map (fun x => x.admin_access)
    role_app_access := r.map (fun x => x.app_access)
    share_id := d.map (fun x => x.id)
    share_item := d.map (fun x => x.item)
    share_collection := d.map (fun x => x.collection)
    share_expires := d.bind (fun x => x.date_expired)
    share_times_used := d.map (fun x => x.times_used)
    share_max_uses := d.bind (fun x => x.max_uses) }

/-- The user object passed to `provider.refresh` (source lines 290–303). -/
def providerUserOf (record : RefreshRecord) : ProviderUser :=
  { id := record.user_id
    first_name := record.user_first_name
    last_name := record.user_last_name
    email := record.user_email
    password := record.user_password
    status := record.user_status
    provider := record.user_provider
    external_identifier := record.user_external_identifier
    auth_data := record.user_auth_data
    role := record.role_id
    app_access := record.role_app_access
    admin_access := record.role_admin_access }

/-- `AuthenticationService.refresh` (source lines 245–362). -/
def refresh (env : Env) (db : DB) (refreshToken : String) :
    Except AuthError RefreshResult × DB :=
  -- if (!refreshToken) throw InvalidCredentials
  if refreshToken == "" then (.error .invalidCredentials, db)
  else
    match db.sessions.find? (sessionRowMatches db env.now refreshToken) with
    | none => (.error .invalidCredentials, db)
    | some s =>
      let record := buildRefreshRecord db s
      -- if (!record || (!record.share_id && !record.user_id)) throw InvalidCredentials
      if record.share_id.isNone && record.user_id.isNone then
        (.error .invalidCredentials, db)
      else
        -- if (record.user_id) { getAuthProvider(record.user_provider); await provider.refresh(...) }
        let hookRes : Except AuthError Unit :=
          match record.user_id with
          | none => .ok ()
          | some _ =>
            if !(env.knownProviders.contains (record.user_provider.getD "")) then
              .error .unknownProvider
            else env.providerRefresh (providerUserOf record)
        match hookRes with
        | .error e => (.error e, db)
        | .ok _ =>
          let tp0 : TokenPayload :=
            { id := record.user_id
              role := record.role_id
              app_access := record.role_app_access
              admin_access := record.role_admin_access
              share_scope := none }
          let scope : ShareScope :=
            { collection := record.share_collection, item := record.share_item }
          let tp :=
            if record.share_id.isSome then
              -- tokenPayload.role = record.share_role: `share_role` is not a
              -- selected alias, so this JS property access yields undefined
              { tp0 with role := none, share_scope := some scope }
            else tp0
          match env.jwtFilter tp with
          | .error e => (.error e, db)
          | .ok customClaims =>
            let accessToken : SignedToken :=
              { claims := customClaims, expiresIn := env.accessTTL, issuer := "directus" }
            let newTok := env.freshToken
            -- update directus_sessions set token = newTok, expires = now + TTL where token = refreshToken
            let rotated := db.sessions.map (fun x =>
              if x.token == refreshToken then
                { x with token := newTok, expires := env.now + env.refreshTTL }
              else x)
            let db1 := { db with sessions := rotated }
            let db2 :=
              match record.user_id with
              | some uid => updateLastAccess db1 uid env.now
              | none => db1
            (.ok { accessToken := accessToken
                   refreshToken := newTok
                   expires := env.accessTTL
                   id := record.user_id },
             db2)

/-- The row of the `logout` lookup: `directus_sessions` INNER JOIN
`directus_users` on `s.user = u.id` WHERE `s.token = tok`, `.first()` —
yields the owning user, or nothing for unknown tokens and for sessions
without an existing owning user (share-based sessions). -/
def logoutUserRecord (db : DB) (tok : String) : Option User :=
  db.sessions.findSome? (fun s =>
    if s.token == tok then s.user.bind (fun uid => db.users.find? (fun u => u.id == uid))
    else none)

/-- `AuthenticationService.logout` (source lines 364–391). -/
def logout (env : Env) (db : DB) (refreshToken : String) :
    Except AuthError Unit × DB :=
  match logoutUserRecord db refreshToken with
  | none => (.ok (), db)
  | some u =>
    -- const provider = getAuthProvider(user.provider); await provider.logout(clone(user));
    if !(env.knownProviders.contains u.provider) then (.error .unknownProvider, db)
    else
      match env.providerLogout u with
      | .error e => (.error e, db)
      | .ok _ =>
        let kept := db.sessions.filter (fun s => !(s.token == refreshToken))
        (.ok (), { db with sessions := kept })

/-- The persisted status of the user with id `uid` (read back from the store). -/
def statusOf (db : DB) (uid : Nat) : Option String :=
  (db.users.find? (fun u => u.id == uid)).map (fun u => u.status)

/-- The denial condition of `refresh` as the claim lists it: the token is
empty, or no session row matches it (with unexpired session and, when
share-based, unexpired share), or the matched row references neither a user
nor a share. -/
def refreshDeniedCond (db : DB) (now : Nat) (tok : String) : Bool :=
  tok == "" ||
    match db.sessions.find? (sessionRowMatches db now tok) with
    | none => true
    | some s =>
      (buildRefreshRecord db s).share_id.isNone && (buildRefreshRecord db s).user_id.isNone

/-- The outcome of the provider `refresh` hook dispatch performed by
`refresh` (`.ok ()` on every path on which the hook is not reached). -/
def refreshHookOutcome (env : Env) (db : DB) (tok : String) : Except AuthError Unit :=
  if tok == "" then .ok ()
  else
    match db.sessions.find? (sessionRowMatches db env.now tok) with
    | none => .ok ()
    | some s =>
      let record := buildRefreshRecord db s
      match record.user_id with
      | none => .ok ()
      | some _ =>
        if !(env.knownProviders.contains (record.user_provider.getD "")) then
          .error .unknownProvider
        else env.providerRefresh (providerUserOf record)

/-! ## Concrete fixtures used by witnesses and counterexamples -/

/-- An active local-provider user with no second factor enrolled. -/
def sampleUser : User :=
  { id := 1, first_name := none, last_name := none, email := some "a@b.c"
    password := some "hash", status := "active", role := 1, provider := "local"
    external_identifier := none, auth_data := none, tfa_secret := none, last_access := none }

/-- The role of `sampleUser`. -/
def sampleRole : Role := { id := 1, admin_access := false, app_access := true }

/-- A concrete environment: one registered provider `local`, which maps every
payload to user id 1 and accepts exactly the payload `1` as the credential;
hooks are identity, the TFA verifier accepts exactly "123". -/
def baseEnv : Env :=
  { knownProviders := ["local"]
    getUserID := fun _ _ => some 1
    providerLogin := fun _ p => if p == 1 then .ok () else .error .invalidCredentials
    providerRefresh := fun _ => .ok ()
    providerLogout := fun _ => .ok ()
    loginFilter := fun p => .ok p
    jwtFilter := fun tp => .ok tp
    verifyOTP := fun _ s => s == "123"
    accessTTL := 900, refreshTTL := 604800, now := 1000
    freshToken := "FRESH", ip := none, userAgent := none, hasAccountability := false }

/-- Store with `sampleUser`, no sessions, login-attempt budget 1. -/
def baseDB : DB :=
  { users := [sampleUser], roles := [sampleRole], sessions := [], shares := []
    auth_login_attempts := some 1, activity := [] }

/-- An unexpired user session for `sampleUser` with token `"T1"`. -/
def sampleSession : Session :=
  { token := "T1", user := some 1, share := none, expires := 2000, ip := none, user_agent := none }

/-- `baseDB` plus `sampleSession`. -/
def dbWithSession : DB := { baseDB with sessions := [sampleSession] }

/-- A share with role override 5, no expiry. -/
def sampleShare : Share :=
  { id := 7, collection := "articles", item := "42", role := 5
    date_expired := none, times_used := 0, max_uses := none }

/-- The role row referenced by `sampleShare`. -/
def shareRole : Role := { id := 5, admin_access := false, app_access := false }

/-- An unexpired pure-share session (no user) with token `"TS"`. -/
def shareSession : Session :=
  { token := "TS", user := none, share := some 7, expires := 2000, ip := none, user_agent := none }

/-- Store holding only the share-based session and its share/role. -/
def shareDB : DB :=
  { users := [], roles := [shareRole], sessions := [shareSession], shares := [sampleShare]
    auth_login_attempts := none, activity := [] }

/-- `baseEnv` with a credential check that accepts every payload. -/
def permissiveEnv : Env := { baseEnv with providerLogin := fun _ _ => .ok () }

/-- `baseEnv` with a provider `refresh` hook that rejects every session. -/
def rejectingRefreshEnv : Env :=
  { baseEnv with providerRefresh := fun _ => .error .invalidCredentials }

/-- `sampleUser` with a second-factor secret enrolled. -/
def tfaUser : User := { sampleUser with tfa_secret := some "SECRET" }

/-- `baseDB` with `tfaUser` instead of `sampleUser`. -/
def tfaDB : DB := { baseDB with users := [tfaUser] }

/-- `sampleUser` with persisted status `suspended`. -/
def suspUser : User := { sampleUser with status := "suspended" }

/-- Store with the suspended user and an unexpired session owned by them. -/
def suspDB : DB := { baseDB with users := [suspUser], sessions := [sampleSession] }

/-- `baseDB` with no users at all. -/
def emptyDB : DB := { baseDB with users := [] }

/-! ## Helper lemmas -/

theorem sessions_updateLastAccess (db : DB) (uid now : Nat) :
    (updateLastAccess db uid now).sessions = db.sessions := rfl

theorem find?_map_pred (f : User → User) (p : User → Bool) (l : List User)
    (hf : ∀ x, p (f x) = p x) :
    (l.map f).find? p = (l.find? p).map f := by
  induction l with
  | nil => rfl
  | cons x xs ih =>
    by_cases hx : p x = true
    · simp [List.find?_cons, hf, hx]
    · simp only [Bool.not_eq_true] at hx
      simp [List.find?_cons, hf, hx, ih]

theorem find_suspended (l : List User) (uid now : Nat)
    (hex : ∃ x, x ∈ l ∧ x.id = uid) :
    (((l.map (fun v => if v.id == uid then { v with status := "suspended" } else v)).map
        (fun v => if v.id == uid then { v with last_access := some now } else v)).find?
        (fun v => v.id == uid)).map (fun v => v.status) = some "suspended" := by
  induction l with
  | nil => simp at hex
  | cons x xs ih =>
    by_cases hx : x.id = uid
    · simp [List.find?_cons, hx]
    · have hx' : (x.id == uid) = false := by simp [hx]
      have hex' : ∃ y, y ∈ xs ∧ y.id = uid := by
        rcases hex with ⟨y, hy, hyid⟩
        rcases List.mem_cons.mp hy with h | h
        · subst h; exact absurd hyid hx
        · exact ⟨y, h, hyid⟩
      rw [List.map_cons, List.map_cons, List.find?_cons_of_neg, ih hex']
      simp [hx']

/-! ## Claim theorems -/

/-- C1, counterexample: the claim says every exit path of `login` — including
the path where the provider name is unknown — passes through the timing
normalizer exactly once.  At the concrete input with unregistered provider
name "oauth", `login` throws (a failure exit) with zero stall calls. -/
theorem login_unknownProvider_skips_stall :
    (login baseEnv baseDB [] "oauth" 1 none).1 = .error .unknownProvider ∧
    (login baseEnv baseDB [] "oauth" 1 none).2.2.2.count Ev.stallCall = 0 := by
  constructor <;> rfl

/-- C1, amended: when the provider name is registered and the `auth.login`
and `auth.jwt` filter hooks do not throw, every exit of `login` — every
throw and the success return — performs exactly one stall call.  Exits
caused by an unknown provider name or by a throwing hook skip the stall. -/
theorem login_stalls_exactly_once_of_hooks_ok (env : Env) (db : DB) (lim : Limiter)
    (name : String) (pl : Nat) (otp : Option String)
    (hname : env.knownProviders.contains name = true)
    (hlf : ∀ p, (env.loginFilter p).isOk = true)
    (hjf : ∀ tp, (env.jwtFilter tp).isOk = true) :
    (login env db lim name pl otp).2.2.2.count .stallCall = 1 := by
  have hfl := hlf pl
  rcases hp : env.loginFilter pl with e | up
  · rw [hp] at hfl; simp [Except.isOk, Except.toBool] at hfl
  · simp only [login, hname, hp, Bool.not_true, Bool.false_eq_true, if_false]
    split
    · rfl
    · split
      · rfl
      · split
        · rfl
        · split
          · rfl
          · split
            · rfl
            · split
              · rfl
              · split
                · rename_i e heq
                  have h2 := congrArg Except.isOk heq
                  rw [hjf] at h2
                  simp [Except.isOk, Except.toBool] at h2
                · rfl

/-- Witness for C1's amended theorem: a successful login of `sampleUser`
under `baseEnv` stalls exactly once. -/
theorem login_stalls_exactly_once_of_hooks_ok_witness :
    (login baseEnv baseDB [] "local" 1 none).2.2.2.count .stallCall = 1 :=
  login_stalls_exactly_once_of_hooks_ok baseEnv baseDB [] "local" 1 none rfl
    (fun _ => rfl) (fun _ => rfl)

/-- C2, counterexample: with budget 1 and one prior failed attempt for
`sampleUser`, the claim says the next attempt fails with `UserSuspended`
even with the correct credential; in fact that attempt succeeds (the code
suspends the persisted status but still runs and accepts the provider's
credential check in the same request). -/
theorem login_lockout_attempt_succeeds_cx :
    (login baseEnv baseDB [] "local" 0 none).1 = .error .invalidCredentials ∧
    (login baseEnv (login baseEnv baseDB [] "local" 0 none).2.1
        (login baseEnv baseDB [] "local" 0 none).2.2.1 "local" 1 none).1.isOk = true ∧
    statusOf (login baseEnv (login baseEnv baseDB [] "local" 0 none).2.1
        (login baseEnv baseDB [] "local" 0 none).2.2.1 "local" 1 none).2.1 1 =
      some "suspended" :=
  ⟨rfl, rfl, rfl⟩

/-- C2, amended: once the attempt budget `N` is exhausted for a user, the
next login attempt suspends the user's persisted status (which afterwards
reads `suspended`), yet that same attempt still succeeds when the provider
accepts the credential and no second factor is enrolled; the attempt after
that one then fails with `UserSuspended`. -/
theorem login_lockout_suspends_but_admits (env : Env) (db : DB) (lim : Limiter)
    (name : String) (pl pl2 pl' pl2' : Nat) (u : User) (r : Role) (N : Nat)
    (hname : env.knownProviders.contains name = true)
    (hf : env.loginFilter pl = .ok pl')
    (hu : findLoginUser db (env.getUserID name pl) name = some (u, r))
    (hactive : u.status = "active")
    (hatt : db.auth_login_attempts = some N)
    (hcount : limGet lim u.id + 1 > N)
    (hcred : ∀ v p, env.providerLogin v p = .ok ())
    (htfa : u.tfa_secret = none)
    (hjf : ∀ tp, (env.jwtFilter tp).isOk = true)
    (hf2 : env.loginFilter pl2 = .ok pl2')
    (hid2 : env.getUserID name pl2 = env.getUserID name pl) :
    (login env db lim name pl none).1.isOk = true ∧
    statusOf (login env db lim name pl none).2.1 u.id = some "suspended" ∧
    (login env (login env db lim name pl none).2.1
       (login env db lim name pl none).2.2.1 name pl2 none).1 = .error .userSuspended := by
  have hmem : name ∈ env.knownProviders := by simpa using hname
  rcases hid : env.getUserID name pl with _ | i
  · rw [hid] at hu; simp [findLoginUser] at hu
  · rw [hid] at hu
    simp only [findLoginUser] at hu
    rcases hfu : db.users.find? (fun v => v.id == i && v.provider == name) with _ | u0
    · simp only [hfu] at hu
      exact Option.noConfusion hu
    · simp only [hfu] at hu
      rcases hfr : db.roles.find? (fun rr => rr.id == u0.role) with _ | r0
      · simp only [hfr] at hu
        exact Option.noConfusion hu
      · simp only [hfr] at hu
        simp only [Option.some.injEq, Prod.mk.injEq] at hu
        obtain ⟨hu1, hu2⟩ := hu
        subst hu1; subst hu2
        have hjw := hjf { id := some u0.id, role := some u0.role, app_access := some r0.app_access
                          admin_access := some r0.admin_access, share_scope := none }
        rcases hjwe : env.jwtFilter { id := some u0.id, role := some u0.role
                                      app_access := some r0.app_access
                                      admin_access := some r0.admin_access
                                      share_scope := none } with e | c
        · rw [hjwe] at hjw; simp [Except.isOk, Except.toBool] at hjw
        · have hfl : findLoginUser db (env.getUserID name pl) name = some (u0, r0) := by
            simp [findLoginUser, hid, hfu, hfr]
          have hmem0 : u0 ∈ db.users := List.mem_of_find?_eq_some hfu
          have husers : (login env db lim name pl none).2.1.users =
              (db.users.map
                (fun v => if v.id == u0.id then { v with status := "suspended" } else v)).map
                (fun v => if v.id == u0.id then { v with last_access := some env.now } else v) := by
            rcases hacc : env.hasAccountability <;>
              simp [login, truthy, hmem, hf, hfl, hactive, hatt, hcount, hcred, htfa,
                hjwe, hacc, updateLastAccess, suspendUser]
          have hroles : (login env db lim name pl none).2.1.roles = db.roles := by
            rcases hacc : env.hasAccountability <;>
              simp [login, truthy, hmem, hf, hfl, hactive, hatt, hcount, hcred, htfa,
                hjwe, hacc, updateLastAccess, suspendUser]
          refine ⟨?_, ?_, ?_⟩
          · simp [login, Except.isOk, Except.toBool, truthy, hmem, hf, hfl, hactive, hatt,
              hcount, hcred, htfa, hjwe]
          · simp only [statusOf, husers]
            exact find_suspended db.users u0.id env.now ⟨u0, hmem0, rfl⟩
          · have hpresS : ∀ x : User,
                ((if x.id == u0.id then { x with status := "suspended" } else x).id == i &&
                 (if x.id == u0.id then { x with status := "suspended" } else x).provider == name)
                 = (x.id == i && x.provider == name) := by
              intro x
              by_cases hx : (x.id == u0.id) = true <;> simp [hx]
            have hpresT : ∀ x : User,
                ((if x.id == u0.id then { x with last_access := some env.now } else x).id == i &&
                 (if x.id == u0.id then { x with last_access := some env.now } else x).provider
                   == name)
                 = (x.id == i && x.provider == name) := by
              intro x
              by_cases hx : (x.id == u0.id) = true <;> simp [hx]
            have hfind2 : (login env db lim name pl none).2.1.users.find?
                (fun v => v.id == i && v.provider == name) =
                some { u0 with status := "suspended", last_access := some env.now } := by
              rw [husers, find?_map_pred _ _ _ hpresT, find?_map_pred _ _ _ hpresS, hfu]
              simp
            have hfl2 : findLoginUser (login env db lim name pl none).2.1
                (env.getUserID name pl2) name =
                some ({ u0 with status := "suspended", last_access := some env.now }, r0) := by
              simp only [findLoginUser, hid2, hid, hfind2, hroles]
              simp [hfr]
            generalize hG : (login env db lim name pl none).2.1 = dbA at hfl2 ⊢
            generalize hL : (login env db lim name pl none).2.2.1 = limA
            simp [login, hmem, hf2, hfl2]

/-- Witness for C2's amended theorem: `sampleUser` with budget 1 and an
exhausted counter is suspended in the store yet the attempt succeeds, and
the following attempt fails with `UserSuspended`. -/
theorem login_lockout_suspends_but_admits_witness :
    (login permissiveEnv baseDB [(1, 1)] "local" 1 none).1.isOk = true ∧
    statusOf (login permissiveEnv baseDB [(1, 1)] "local" 1 none).2.1 sampleUser.id =
      some "suspended" ∧
    (login permissiveEnv (login permissiveEnv baseDB [(1, 1)] "local" 1 none).2.1
       (login permissiveEnv baseDB [(1, 1)] "local" 1 none).2.2.1 "local" 2 none).1 =
      .error .userSuspended :=
  login_lockout_suspends_but_admits permissiveEnv baseDB [(1, 1)] "local" 1 2 1 2
    sampleUser sampleRole 1 rfl rfl rfl rfl rfl (by decide) (fun _ _ => rfl) rfl
    (fun _ => rfl) rfl rfl

/-- C3: for every successful `login` call, the final store holds a session
row whose token equals the returned refresh token, whose user equals the
authenticated user's id, and whose expiry is the issue time plus the
configured refresh-token TTL. -/
theorem login_success_persists_session (env : Env) (db : DB) (lim : Limiter)
    (name : String) (pl : Nat) (otp : Option String)
    (res : LoginResult) (db' : DB) (lim' : Limiter) (tr : List Ev)
    (h : login env db lim name pl otp = (.ok res, db', lim', tr)) :
    ∃ s ∈ db'.sessions, s.token = res.refreshToken ∧ s.user = some res.id ∧
      s.expires = env.now + env.refreshTTL := by
  simp only [login] at h
  split at h
  · simp at h
  · split at h
    · simp at h
    · split at h
      · simp at h
      · split at h
        · simp at h
        · split at h
          · simp at h
          · split at h
            · simp at h
            · split at h
              · simp at h
              · split at h
                · simp at h
                · split at h
                  · simp at h
                  · simp only [Prod.mk.injEq, Except.ok.injEq] at h
                    obtain ⟨h1, h2, h3, h4⟩ := h
                    subst h1; subst h2
                    rw [sessions_updateLastAccess]
                    rcases hacc : env.hasAccountability <;> simp only [hacc] <;>
                      exact ⟨_, List.mem_filter.mpr
                        ⟨List.mem_cons_self _ _, by simp⟩, rfl, rfl, rfl⟩

/-- Witness for C3 at a concrete successful login of `sampleUser`. -/
theorem login_success_persists_session_witness :
    ∃ s ∈ (login baseEnv baseDB [] "local" 1 none).2.1.sessions,
      s.token = ({ accessToken := { claims := { id := some 1, role := some 1
                                                app_access := some true
                                                admin_access := some false
                                                share_scope := none }
                                    expiresIn := 900, issuer := "directus" }
                   refreshToken := "FRESH", expires := 900, id := 1 } : LoginResult).refreshToken ∧
      s.user = some ({ accessToken := { claims := { id := some 1, role := some 1
                                                    app_access := some true
                                                    admin_access := some false
                                                    share_scope := none }
                                        expiresIn := 900, issuer := "directus" }
                       refreshToken := "FRESH", expires := 900, id := 1 } : LoginResult).id ∧
      s.expires = baseEnv.now + baseEnv.refreshTTL :=
  login_success_persists_session baseEnv baseDB [] "local" 1 none
    { accessToken := { claims := { id := some 1, role := some 1, app_access := some true
                                   admin_access := some false, share_scope := none }
                       expiresIn := 900, issuer := "directus" }
      refreshToken := "FRESH", expires := 900, id := 1 }
    (login baseEnv baseDB [] "local" 1 none).2.1
    (login baseEnv baseDB [] "local" 1 none).2.2.1
    (login baseEnv baseDB [] "local" 1 none).2.2.2 rfl

/-- C7: when the looked-up user is absent (including a provider-name
mismatch) or has a non-active status, `login` emits the failure event and
throws `UserSuspended` exactly for status `suspended` and
`InvalidCredentials` otherwise, with no call to the provider's credential
check and no state change (the returned trace is exactly
filter-hook, fail emission, stall). -/
theorem login_inactive_user_rejected (env : Env) (db : DB) (lim : Limiter)
    (name : String) (pl pl' : Nat) (otp : Option String)
    (hname : env.knownProviders.contains name = true)
    (hf : env.loginFilter pl = .ok pl') :
    (findLoginUser db (env.getUserID name pl) name = none →
      login env db lim name pl otp =
        (.error .invalidCredentials, db, lim, [.filterLogin, .emitFail, .stallCall])) ∧
    (∀ u r, findLoginUser db (env.getUserID name pl) name = some (u, r) →
      u.status ≠ "active" →
      login env db lim name pl otp =
        (.error (if u.status = "suspended" then .userSuspended else .invalidCredentials),
         db, lim, [.filterLogin, .emitFail, .stallCall])) := by
  have hmem : name ∈ env.knownProviders := by
    simpa using hname
  constructor
  · intro h
    simp [login, hmem, hf, h]
  · intro u r h hne
    by_cases hs : u.status = "suspended"
    · simp [login, hmem, hf, h, hs]
    · simp [login, hmem, hf, h, hs, hne]

/-- Witness for C7: with no users in the store, `login` throws
`InvalidCredentials` after emitting the failure event and stalling. -/
theorem login_inactive_user_rejected_witness :
    login baseEnv emptyDB [] "local" 1 none =
      (.error .invalidCredentials, emptyDB, [], [.filterLogin, .emitFail, .stallCall]) :=
  (login_inactive_user_rejected baseEnv emptyDB [] "local" 1 1 none rfl rfl).1 rfl

/-- C8: for a user with an enrolled second factor whose credential check
passes: a missing (or empty) OTP yields `InvalidOTP "required"`, an OTP the
verifier rejects yields `InvalidOTP "invalid"` — both after emitting the
failure event — and the call proceeds to a successful result exactly when
the verifier accepts. -/
theorem login_tfa_gate (env : Env) (db : DB) (lim : Limiter)
    (name : String) (pl pl' : Nat) (otp : Option String) (u : User) (r : Role)
    (hname : env.knownProviders.contains name = true)
    (hf : env.loginFilter pl = .ok pl')
    (hu : findLoginUser db (env.getUserID name pl) name = some (u, r))
    (hactive : u.status = "active")
    (htfa : truthy u.tfa_secret = true)
    (hcred : ∀ v, env.providerLogin v pl' = .ok ())
    (hjf : ∀ tp, (env.jwtFilter tp).isOk = true) :
    (truthy otp = false →
      (login env db lim name pl otp).1 = .error (.invalidOTP "required") ∧
      (login env db lim name pl otp).2.2.2 =
        [.filterLogin, .providerLoginCall, .emitFail, .stallCall]) ∧
    (∀ s, otp = some s → truthy otp = true → env.verifyOTP u.id s = false →
      (login env db lim name pl otp).1 = .error (.invalidOTP "invalid") ∧
      (login env db lim name pl otp).2.2.2 =
        [.filterLogin, .providerLoginCall, .emitFail, .stallCall]) ∧
    (∀ s, otp = some s → truthy otp = true → env.verifyOTP u.id s = true →
      (login env db lim name pl otp).1.isOk = true) := by
  have hmem : name ∈ env.knownProviders := by
    simpa using hname
  refine ⟨?_, ?_, ?_⟩
  · intro hotp
    rcases hatt : db.auth_login_attempts with _ | points
    · simp [login, hmem, hf, hu, hactive, hatt, hcred, htfa, hotp]
    · by_cases hlim : limGet lim u.id + 1 > points
      · simp [login, hmem, hf, hu, hactive, hatt, hlim, hcred, htfa, hotp]
      · simp [login, hmem, hf, hu, hactive, hatt, hlim, hcred, htfa, hotp]
  · intro s hs hotp hbad
    subst hs
    rcases hatt : db.auth_login_attempts with _ | points
    · simp [login, hmem, hf, hu, hactive, hatt, hcred, htfa, hotp, hbad]
    · by_cases hlim : limGet lim u.id + 1 > points
      · simp [login, hmem, hf, hu, hactive, hatt, hlim, hcred, htfa, hotp, hbad]
      · simp [login, hmem, hf, hu, hactive, hatt, hlim, hcred, htfa, hotp, hbad]
  · intro s hs hotp hok
    subst hs
    have hjw := hjf { id := some u.id, role := some u.role, app_access := some r.app_access
                      admin_access := some r.admin_access, share_scope := none }
    rcases hjwe : env.jwtFilter { id := some u.id, role := some u.role
                                  app_access := some r.app_access
                                  admin_access := some r.admin_access
                                  share_scope := none } with e | c
    · rw [hjwe] at hjw
      simp [Except.isOk, Except.toBool] at hjw
    · rcases hatt : db.auth_login_attempts with _ | points
      · simp [login, Except.isOk, Except.toBool, hmem, hf, hu, hactive, hatt, hcred, htfa,
          hotp, hok, hjwe]
      · by_cases hlim : limGet lim u.id + 1 > points
        · simp [login, Except.isOk, Except.toBool, hmem, hf, hu, hactive, hatt, hlim, hcred,
            htfa, hotp, hok, hjwe]
        · simp [login, Except.isOk, Except.toBool, hmem, hf, hu, hactive, hatt, hlim, hcred,
            htfa, hotp, hok, hjwe]

/-- Witness for C8: `tfaUser` with no OTP supplied is rejected with
`InvalidOTP "required"` after the failure event is emitted. -/
theorem login_tfa_gate_witness :
    (login permissiveEnv tfaDB [] "local" 1 none).1 = .error (.invalidOTP "required") ∧
    (login permissiveEnv tfaDB [] "local" 1 none).2.2.2 =
      [.filterLogin, .providerLoginCall, .emitFail, .stallCall] :=
  (login_tfa_gate permissiveEnv tfaDB [] "local" 1 1 none tfaUser sampleRole rfl rfl rfl
    rfl rfl (fun _ => rfl) (fun _ => rfl)).1 rfl

/-- C4: a successful `refresh` with token `t` rotates the matching session
row in place — afterwards a row carries the fresh token with expiry
`now + TTL`, the returned refresh token is that fresh token, no session row
with token `t` remains, and a second `refresh` using `t` (under any
environment) fails with `InvalidCredentials`. -/
theorem refresh_rotates_token (env env2 : Env) (db : DB) (t : String)
    (res : RefreshResult) (db' : DB)
    (h : refresh env db t = (.ok res, db'))
    (hfresh : env.freshToken ≠ t) :
    res.refreshToken = env.freshToken ∧
    (∃ s ∈ db'.sessions, s.token = env.freshToken ∧ s.expires = env.now + env.refreshTTL) ∧
    (∀ s ∈ db'.sessions, s.token ≠ t) ∧
    (refresh env2 db' t).1 = .error .invalidCredentials := by
  simp only [refresh] at h
  split at h
  · simp at h
  · split at h
    · simp at h
    · rename_i s0 hfind
      split at h
      · simp at h
      · split at h
        · simp at h
        · split at h
          · simp at h
          · simp only [Prod.mk.injEq, Except.ok.injEq] at h
            obtain ⟨h1, h2⟩ := h
            subst h1
            have hsess : db'.sessions = db.sessions.map (fun x =>
                if x.token == t then { x with token := env.freshToken
                                              expires := env.now + env.refreshTTL } else x) := by
              rw [← h2]
              cases hcase : (buildRefreshRecord db s0).user_id <;> rfl
            have hmem0 : s0 ∈ db.sessions := List.mem_of_find?_eq_some hfind
            have hpred := List.find?_some hfind
            have htok : (s0.token == t) = true := by
              simp only [sessionRowMatches, Bool.and_eq_true] at hpred
              exact hpred.1.1
            have hall : ∀ s ∈ db'.sessions, s.token ≠ t := by
              intro s hs
              rw [hsess] at hs
              rcases List.mem_map.mp hs with ⟨x, hx, rfl⟩
              by_cases hxt : (x.token == t) = true
              · simp only [hxt, if_true]
                exact hfresh
              · simp only [hxt, Bool.false_eq_true, if_false]
                simpa using hxt
            refine ⟨rfl, ?_, hall, ?_⟩
            · refine ⟨{ s0 with token := env.freshToken, expires := env.now + env.refreshTTL },
                ?_, rfl, rfl⟩
              rw [hsess]
              have hmm := List.mem_map_of_mem (f := fun x =>
                if x.token == t then { x with token := env.freshToken
                                              expires := env.now + env.refreshTTL } else x) hmem0
              simpa [htok] using hmm
            · simp only [refresh]
              by_cases ht0 : (t == "") = true
              · simp [ht0]
              · have hnone : db'.sessions.find? (sessionRowMatches db' env2.now t) = none := by
                  rw [List.find?_eq_none]
                  intro x hx
                  have hne := hall x hx
                  simp only [sessionRowMatches, Bool.and_eq_true, beq_iff_eq]
                  intro hcon
                  exact hne hcon.1.1
                simp [ht0, hnone]

/-- Witness for C4: rotating the session of `sampleUser` replaces token
"T1" by the fresh token and a replayed refresh with "T1" is rejected. -/
theorem refresh_rotates_token_witness :
    ({ accessToken := { claims := { id := some 1, role := some 1, app_access := some true
                                    admin_access := some false, share_scope := none }
                        expiresIn := 900, issuer := "directus" }
       refreshToken := "FRESH", expires := 900, id := some 1 } : RefreshResult).refreshToken
      = baseEnv.freshToken ∧
    (∃ s ∈ (refresh baseEnv dbWithSession "T1").2.sessions,
      s.token = baseEnv.freshToken ∧ s.expires = baseEnv.now + baseEnv.refreshTTL) ∧
    (∀ s ∈ (refresh baseEnv dbWithSession "T1").2.sessions, s.token ≠ "T1") ∧
    (refresh baseEnv (refresh baseEnv dbWithSession "T1").2 "T1").1 =
      .error .invalidCredentials :=
  refresh_rotates_token baseEnv baseEnv dbWithSession "T1"
    { accessToken := { claims := { id := some 1, role := some 1, app_access := some true
                                   admin_access := some false, share_scope := none }
                       expiresIn := 900, issuer := "directus" }
      refreshToken := "FRESH", expires := 900, id := some 1 }
    (refresh baseEnv dbWithSession "T1").2 rfl (by decide)

/-- C5, counterexample: the claim says `refresh` throws
`InvalidCredentials` exactly in the three listed no-identity cases.  With a
valid, unexpired user session (none of the three cases holds) and a
provider whose `refresh` hook rejects, the call still throws
`InvalidCredentials` (the hook's error propagates). -/
theorem refresh_hook_ic_outside_denial_cx :
    refreshDeniedCond dbWithSession rejectingRefreshEnv.now "T1" = false ∧
    (refresh rejectingRefreshEnv dbWithSession "T1").1 = .error .invalidCredentials ∧
    (refresh rejectingRefreshEnv dbWithSession "T1").2 = dbWithSession :=
  ⟨rfl, rfl, rfl⟩

/-- C5, amended: assuming the `auth.jwt` hook does not throw, `refresh`
throws `InvalidCredentials` exactly when one of the three listed
no-identity conditions holds or when the provider `refresh` hook itself
throws `InvalidCredentials`; in the three listed cases no state is
modified. -/
theorem refresh_ic_iff (env : Env) (db : DB) (tok : String)
    (hjf : ∀ tp, (env.jwtFilter tp).isOk = true) :
    ((refresh env db tok).1 = .error .invalidCredentials ↔
      (refreshDeniedCond db env.now tok = true ∨
       refreshHookOutcome env db tok = .error .invalidCredentials)) ∧
    (refreshDeniedCond db env.now tok = true → (refresh env db tok).2 = db) := by
  by_cases ht : (tok == "") = true
  · simp [refresh, refreshDeniedCond, refreshHookOutcome, ht]
  · rw [Bool.not_eq_true] at ht
    rcases hfind : db.sessions.find? (sessionRowMatches db env.now tok) with _ | s
    · simp [refresh, refreshDeniedCond, refreshHookOutcome, ht, hfind]
    · by_cases hident : ((buildRefreshRecord db s).share_id.isNone &&
          (buildRefreshRecord db s).user_id.isNone) = true
      · simp [refresh, refreshDeniedCond, refreshHookOutcome, ht, hfind, hident]
      · rcases huid : (buildRefreshRecord db s).user_id with _ | uid
        · rcases hsid : (buildRefreshRecord db s).share_id with _ | sid
          · exfalso
            apply hident
            rw [hsid, huid]
            rfl
          · rcases hjwe : env.jwtFilter
                { id := none, role := none
                  app_access := (buildRefreshRecord db s).role_app_access
                  admin_access := (buildRefreshRecord db s).role_admin_access
                  share_scope := some { collection := (buildRefreshRecord db s).share_collection
                                        item := (buildRefreshRecord db s).share_item } }
                with e | c
            · have h2 := congrArg Except.isOk hjwe
              rw [hjf] at h2
              simp [Except.isOk, Except.toBool] at h2
            · simp [refresh, refreshDeniedCond, refreshHookOutcome, ht, hfind, huid, hsid,
                hjwe]
        · by_cases hknown :
              (env.knownProviders.contains ((buildRefreshRecord db s).user_provider.getD ""))
              = true
          · have hpmem : (buildRefreshRecord db s).user_provider.getD "" ∈
                env.knownProviders := by
              simpa using hknown
            rcases hook : env.providerRefresh (providerUserOf (buildRefreshRecord db s))
                with e' | uu
            · simp [refresh, refreshDeniedCond, refreshHookOutcome, ht, hfind, huid,
                hident, hknown, hpmem, hook]
            · rcases hsid : (buildRefreshRecord db s).share_id with _ | sid
              · rcases hjwe : env.jwtFilter
                    { id := some uid, role := (buildRefreshRecord db s).role_id
                      app_access := (buildRefreshRecord db s).role_app_access
                      admin_access := (buildRefreshRecord db s).role_admin_access
                      share_scope := none }
                    with e | c
                · have h2 := congrArg Except.isOk hjwe
                  rw [hjf] at h2
                  simp [Except.isOk, Except.toBool] at h2
                · simp [refresh, refreshDeniedCond, refreshHookOutcome, ht, hfind, huid,
                    hsid, hknown, hpmem, hook, hjwe]
              · rcases hjwe : env.jwtFilter
                    { id := some uid, role := none
                      app_access := (buildRefreshRecord db s).role_app_access
                      admin_access := (buildRefreshRecord db s).role_admin_access
                      share_scope := some { collection := (buildRefreshRecord db s).share_collection
                                            item := (buildRefreshRecord db s).share_item } }
                    with e | c
                · have h2 := congrArg Except.isOk hjwe
                  rw [hjf] at h2
                  simp [Except.isOk, Except.toBool] at h2
                · simp [refresh, refreshDeniedCond, refreshHookOutcome, ht, hfind, huid,
                    hsid, hknown, hpmem, hook, hjwe]
          · rw [Bool.not_eq_true] at hknown
            have hpmem : ¬ ((buildRefreshRecord db s).user_provider.getD "" ∈
                env.knownProviders) := by
              simpa using hknown
            simp [refresh, refreshDeniedCond, refreshHookOutcome, ht, hfind, huid,
              hident, hknown, hpmem]

/-- Witness for C5's amended theorem at a store with no session matching
the token: the denial condition holds, the call throws
`InvalidCredentials`, and the store is unchanged. -/
theorem refresh_ic_iff_witness :
    (((refresh baseEnv baseDB "T1").1 = .error .invalidCredentials ↔
      (refreshDeniedCond baseDB baseEnv.now "T1" = true ∨
       refreshHookOutcome baseEnv baseDB "T1" = .error .invalidCredentials)) ∧
     (refreshDeniedCond baseDB baseEnv.now "T1" = true →
       (refresh baseEnv baseDB "T1").2 = baseDB)) :=
  refresh_ic_iff baseEnv baseDB "T1" (fun _ => rfl)

/-- C6: the claim says a share-based `refresh` issues a token whose role
equals the share's role override.  The SELECT of `refresh` has no
`share_role` alias, so `tokenPayload.role = record.share_role` assigns
undefined: `sampleShare` has role override 5 and the joined `role_id` is 5,
yet the issued claims carry no role at all (`none`), while the share scope
and the null user id behave as claimed.  The code contradicts its own
intent of overriding the role with the share's role. -/
theorem refresh_share_role_dropped :
    sampleShare.role = 5 ∧
    (buildRefreshRecord shareDB shareSession).role_id = some 5 ∧
    (refresh baseEnv shareDB "TS").1 =
      .ok { accessToken := { claims := { id := none, role := none, app_access := some false
                                         admin_access := some false
                                         share_scope := some { collection := some "articles"
                                                               item := some "42" } }
                             expiresIn := 900, issuer := "directus" }
            refreshToken := "FRESH", expires := 900, id := none } :=
  ⟨rfl, rfl, rfl⟩

/-- C9, counterexample: the claim says `logout` deletes the session row
whenever the token matches a session.  For the share-based session with
token "TS" the inner join to users yields no record, so `logout` completes
without error and the session row is left in place. -/
theorem logout_share_session_not_deleted_cx :
    (logout baseEnv shareDB "TS").1 = .ok () ∧
    (logout baseEnv shareDB "TS").2 = shareDB ∧
    shareSession ∈ shareDB.sessions ∧ shareSession.token = "TS" :=
  ⟨rfl, rfl, List.mem_cons_self _ _, rfl⟩

/-- C9, amended: `logout` deletes the matching session rows only when the
token belongs to a session with an existing owning user (and the provider's
logout hook succeeds); when no user-owned session matches — unknown tokens,
already-logged-out tokens, and share-based sessions — it completes without
error and without modifying any state, so a repeated logout is a no-op. -/
theorem logout_deletes_user_sessions (env env2 : Env) (db : DB) (tok : String) :
    (logoutUserRecord db tok = none → logout env db tok = (.ok (), db)) ∧
    (∀ u, logoutUserRecord db tok = some u →
      env.knownProviders.contains u.provider = true →
      env.providerLogout u = .ok () →
      logout env db tok =
        (.ok (), { db with sessions := db.sessions.filter (fun s => !(s.token == tok)) }) ∧
      logout env2 { db with sessions := db.sessions.filter (fun s => !(s.token == tok)) } tok =
        (.ok (), { db with sessions := db.sessions.filter (fun s => !(s.token == tok)) })) := by
  constructor
  · intro h
    simp [logout, h]
  · intro u hrec hknown hlog
    have hpmem : u.provider ∈ env.knownProviders := by simpa using hknown
    constructor
    · simp [logout, hrec, hpmem, hlog]
    · have hnone : logoutUserRecord
          { db with sessions := db.sessions.filter (fun s => !(s.token == tok)) } tok =
          none := by
        simp only [logoutUserRecord, List.findSome?_eq_none_iff]
        intro x hx
        have hxt : (x.token == tok) = false := by
          have hmf := (List.mem_filter.mp hx).2
          simpa using hmf
        simp [hxt]
      simp [logout, hnone]

/-- Witness for C9's amended theorem: logging `sampleUser`'s session out
deletes it, and a second logout with the same token is a no-op. -/
theorem logout_deletes_user_sessions_witness :
    logout baseEnv dbWithSession "T1" =
      (.ok (), { dbWithSession with
                 sessions := dbWithSession.sessions.filter (fun s => !(s.token == "T1")) }) ∧
    logout baseEnv
        { dbWithSession with
          sessions := dbWithSession.sessions.filter (fun s => !(s.token == "T1")) } "T1" =
      (.ok (), { dbWithSession with
                 sessions := dbWithSession.sessions.filter (fun s => !(s.token == "T1")) }) :=
  (logout_deletes_user_sessions baseEnv baseEnv dbWithSession "T1").2 sampleUser rfl rfl rfl

/-- C10: `refresh` never inspects the user's status — for a session owned
by an existing user of any status (in particular `suspended`), with an
unexpired session row, a registered provider whose refresh hook succeeds
and a non-throwing jwt hook, the call succeeds and issues new tokens. -/
theorem refresh_ignores_user_status (env : Env) (db : DB) (tok : String)
    (s : Session) (uid : Nat) (u : User)
    (ht : (tok == "") = false)
    (hfind : db.sessions.find? (sessionRowMatches db env.now tok) = some s)
    (hsu : s.user = some uid)
    (hu : db.users.find? (fun x => x.id == uid) = some u)
    (hknown : env.knownProviders.contains u.provider = true)
    (hhook : ∀ v, env.providerRefresh v = .ok ())
    (hjf : ∀ tp, (env.jwtFilter tp).isOk = true) :
    (refresh env db tok).1.isOk = true := by
  have hpmem : u.provider ∈ env.knownProviders := by simpa using hknown
  have huid : (buildRefreshRecord db s).user_id = some u.id := by
    simp [buildRefreshRecord, hsu, hu]
  have hprov : (buildRefreshRecord db s).user_provider = some u.provider := by
    simp [buildRefreshRecord, hsu, hu]
  rcases hsid : (buildRefreshRecord db s).share_id with _ | sid
  · rcases hjwe : env.jwtFilter
        { id := some u.id, role := (buildRefreshRecord db s).role_id
          app_access := (buildRefreshRecord db s).role_app_access
          admin_access := (buildRefreshRecord db s).role_admin_access
          share_scope := none } with e | c
    · have h2 := congrArg Except.isOk hjwe
      rw [hjf] at h2
      simp [Except.isOk, Except.toBool] at h2
    · simp [refresh, Except.isOk, Except.toBool, ht, hfind, huid, hprov, hsid, hpmem,
        hhook, hjwe]
  · rcases hjwe : env.jwtFilter
        { id := some u.id, role := none
          app_access := (buildRefreshRecord db s).role_app_access
          admin_access := (buildRefreshRecord db s).role_admin_access
          share_scope := some { collection := (buildRefreshRecord db s).share_collection
                                item := (buildRefreshRecord db s).share_item } } with e | c
    · have h2 := congrArg Except.isOk hjwe
      rw [hjf] at h2
      simp [Except.isOk, Except.toBool] at h2
    · simp [refresh, Except.isOk, Except.toBool, ht, hfind, huid, hprov, hsid, hpmem,
        hhook, hjwe]

/-- Witness for C10: the suspended `suspUser` still refreshes their
session successfully. -/
theorem refresh_ignores_user_status_witness :
    (refresh baseEnv suspDB "T1").1.isOk = true :=
  refresh_ignores_user_status baseEnv suspDB "T1" sampleSession 1 suspUser rfl rfl rfl rfl
    rfl (fun _ => rfl) (fun _ => rfl)

end Directus
